import Mathlib

/-!
Verification of `src/lib/redirect_server.py` (StopBrowsing redirect server).

The program defines `StopBrowsingHandler`, a subclass of the Python standard
library's `http.server.SimpleHTTPRequestHandler`, overriding `do_GET` to
rewrite the requested path to `/index.html` before delegating, and
`log_message` to suppress all request logging.  Its `main` checks the
argument count, parses the port with `int()`, changes the working directory
to the redirect directory, binds a `socketserver.TCPServer` on host `""`,
and serves forever until a `KeyboardInterrupt` is caught.

The embedding below models the repository code faithfully; the pieces of the
Python standard library it delegates to (`SimpleHTTPRequestHandler`'s path
translation and file serving, `BaseHTTPRequestHandler`'s method dispatch,
`int()` conversion) are modelled from their documented behaviour, restricted
to what the claims need.
-/

namespace StopBrowsing

/-- An HTTP request as seen by the handler: method line pieces and headers.
The query string is part of `path`, as in the raw request target. -/
structure Request where
  method : String
  path : String
  headers : List (String × String)
deriving Repr, DecidableEq

/-- An HTTP response, reduced to the status code and the body bytes. -/
structure Response where
  status : Nat
  body : String
deriving Repr, DecidableEq

/-- Contents of the redirect directory: file names (paths relative to the
directory, `/`-separated for nested files) paired with their contents. -/
abbrev Dir := List (String × String)

/-- Look up a file in the directory by its relative path. -/
def lookupFile (d : Dir) (name : String) : Option String :=
  (d.find? (fun e => e.1 = name)).map Prod.snd

/-- Split a character list at every occurrence of the separator `c`. -/
def splitOnChar (c : Char) : List Char → List (List Char)
  | [] => [[]]
  | x :: xs =>
    if x = c then [] :: splitOnChar c xs
    else
      match splitOnChar c xs with
      | [] => [[x]]
      | w :: ws => (x :: w) :: ws

/-- Join path components back together with `/` separators. -/
def joinSlash : List (List Char) → List Char
  | [] => []
  | [w] => w
  | w :: ws => w ++ '/' :: joinSlash ws

/-- Modelled from the Python stdlib (`SimpleHTTPRequestHandler.translate_path`):
drop the query string (everything from the first `?`) and the fragment
(everything from the first `#`), split the rest on `/`, discard empty
components and the `.` and `..` components, and rejoin, yielding a path
relative to the working directory.  URL percent-decoding is not modelled (no
claim involves it). -/
def translate_path (p : String) : String :=
  let noQuery := (splitOnChar '?' p.toList).headD []
  let noFrag := (splitOnChar '#' noQuery).headD []
  let words := (splitOnChar '/' noFrag).filter
    (fun w => w != [] && w != ['.'] && w != ['.', '.'])
  String.mk (joinSlash words)

/-- Modelled from the Python stdlib: the generated directory-listing page that
`SimpleHTTPRequestHandler` serves for a directory with no index file. -/
def list_directory (d : Dir) : String :=
  "Directory listing for /: " ++ String.intercalate ", " (d.map Prod.fst)

/-- Modelled from the Python stdlib (`SimpleHTTPRequestHandler.send_head`):
translate the request path; if it names the directory itself, serve
`index.html` when present and the generated listing otherwise; if it names a
file, serve its contents with status 200, or answer 404 when it is absent. -/
def send_head (d : Dir) (path : String) : Response :=
  let file := translate_path path
  if file = "" then
    match lookupFile d "index.html" with
    | some c => ⟨200, c⟩
    | none => ⟨200, list_directory d⟩
  else
    match lookupFile d file with
    | some c => ⟨200, c⟩
    | none => ⟨404, "File not found"⟩

/-- Modelled from the Python stdlib: the inherited
`SimpleHTTPRequestHandler.do_GET`, serving the file named by the request
path. -/
def super_do_GET (d : Dir) (req : Request) : Response :=
  send_head d req.path

/-- Modelled from the Python stdlib: the inherited
`SimpleHTTPRequestHandler.do_HEAD`, identical head processing but no body is
sent. -/
def super_do_HEAD (d : Dir) (req : Request) : Response :=
  { send_head d req.path with body := "" }

/-- `StopBrowsingHandler.do_GET` (src/lib/redirect_server.py lines 18-22):
set `self.path = '/index.html'` and delegate to `super().do_GET()`. -/
def StopBrowsingHandler.do_GET (d : Dir) (req : Request) : Response :=
  super_do_GET d { req with path := "/index.html" }

/-- `StopBrowsingHandler.log_message` (src/lib/redirect_server.py lines
24-26): overridden with `pass`, so a call produces no output lines. -/
def StopBrowsingHandler.log_message (fmt : String) (args : List String) :
    List String :=
  []

/-- Modelled from the Python stdlib: the base
`BaseHTTPRequestHandler.log_message` it replaces writes one formatted line to
standard error. -/
def base_log_message (fmt : String) (args : List String) : List String :=
  [fmt ++ " " ++ String.intercalate " " args]

/-- Modelled from the Python stdlib (`BaseHTTPRequestHandler` method
dispatch) over `StopBrowsingHandler`: a `do_<METHOD>` method is looked up on
the handler class; `do_GET` is the override above, `do_HEAD` is inherited
from `SimpleHTTPRequestHandler`, and any other method gets 501 Unsupported
method.  The second component collects the log lines the handler emits for
the request, all produced through the overridden `log_message`. -/
def StopBrowsingHandler.handle (d : Dir) (req : Request) :
    Response × List String :=
  match req.method with
  | "GET" =>
      (StopBrowsingHandler.do_GET d req,
        StopBrowsingHandler.log_message "request" [req.path])
  | "HEAD" =>
      (super_do_HEAD d req,
        StopBrowsingHandler.log_message "request" [req.path])
  | m =>
      (⟨501, "Unsupported method (" ++ m ++ ")"⟩,
        StopBrowsingHandler.log_message "error" [m])

/-- Modelled from the Python stdlib: `int(s)` on a decimal string, as used on
`sys.argv[1]`.  Surrounding whitespace is stripped, an optional single sign
is allowed, and the rest must be one or more ASCII digits (underscore digit
grouping is not modelled); any other string raises `ValueError`, here
`none`. -/
def pyInt (s : String) : Option Int :=
  let isSpace : Char → Bool := fun c =>
    c = ' ' || c = '\t' || c = '\n' || c = '\r'
  let t := ((s.toList.dropWhile isSpace).reverse.dropWhile isSpace).reverse
  let neg := t.headD ' ' = '-'
  let core := if t.headD ' ' = '-' || t.headD ' ' = '+' then t.tail else t
  if core.length > 0 && core.all Char.isDigit then
    let n : Nat := core.foldl (fun acc c => 10 * acc + (c.toNat - 48)) 0
    some (if neg then -(n : Int) else (n : Int))
  else none

/-- Observable events of a run of the process. -/
inductive Event where
  | stdout (s : String)
  | stderr (s : String)
  | exitCode (n : Nat)
  | chdir (dir : String)
  | bind (host : String) (port : Int)
  | response (path : String) (r : Response)
  | uncaught (err : String)
deriving Repr, DecidableEq

/-- The environment a run sees: which directories exist (with their
contents), and whether binding a given port succeeds. -/
structure Env where
  dirs : List (String × Dir)
  bindOk : Int → Bool

/-- Handling of one accepted connection: the handler runs, its (suppressed)
log lines go to standard error, and the response is written back. -/
def serve_one (d : Dir) (req : Request) : List Event :=
  let hr := StopBrowsingHandler.handle d req
  hr.2.map Event.stderr ++ [Event.response req.path hr.1]

/-- `httpd.serve_forever()`: the unbounded accept loop, run over the
requests that arrive before the interrupt is delivered.  Handler-level
errors never terminate the loop; it ends only with the interrupt. -/
def serve_forever (d : Dir) (reqs : List Request) : List Event :=
  (reqs.map (serve_one d)).flatten

/-- `main()` (src/lib/redirect_server.py lines 28-45), as the event trace of
a run in which `reqs` arrive and then a `KeyboardInterrupt` is delivered:
check `len(sys.argv) != 3` (usage message to stdout, `sys.exit(1)`); parse
the port with `int()` (unhandled `ValueError` on failure); `os.chdir` to the
redirect directory (unhandled `FileNotFoundError` when it is missing); bind
`socketserver.TCPServer(("", port), ...)` (unhandled `OSError` on failure);
print the startup line; `serve_forever()`; on the interrupt print
`Server stopped` and fall off the end of `main` (no exit-code forcing). -/
def main_run (env : Env) (argv : List String) (reqs : List Request) :
    List Event :=
  if argv.length ≠ 3 then
    [.stdout "Usage: redirect_server.py <port> <redirect_dir>", .exitCode 1]
  else
    match pyInt (argv.getD 1 "") with
    | none => [.uncaught "ValueError"]
    | some port =>
      let redirect_dir := argv.getD 2 ""
      match (env.dirs.find? (fun e => e.1 = redirect_dir)).map Prod.snd with
      | none => [.uncaught "FileNotFoundError"]
      | some d =>
        [.chdir redirect_dir, .bind "" port] ++
        (if env.bindOk port then
          [.stdout ("StopBrowsing redirect server running on port "
            ++ toString port)]
          ++ serve_forever d reqs
          ++ [.stdout "Server stopped"]
        else
          [.uncaught "OSError"])

/-- Lines printed to standard output, in order. -/
def stdoutLines (tr : List Event) : List String :=
  tr.filterMap (fun e => match e with | .stdout s => some s | _ => none)

/-- Lines printed to standard output or standard error, in order. -/
def printedLines (tr : List Event) : List String :=
  tr.filterMap (fun e =>
    match e with | .stdout s => some s | .stderr s => some s | _ => none)

/-- Socket bind attempts (host, port) appearing in a trace, in order. -/
def binds (tr : List Event) : List (String × Int) :=
  tr.filterMap (fun e => match e with | .bind h p => some (h, p) | _ => none)

/-- Working-directory changes appearing in a trace, in order. -/
def chdirs (tr : List Event) : List String :=
  tr.filterMap (fun e => match e with | .chdir d => some d | _ => none)

/-- Responses written back to clients, in order. -/
def responses (tr : List Event) : List Response :=
  tr.filterMap (fun e => match e with | .response _ r => some r | _ => none)

/-- Whether the run ends with a non-zero process exit status: an explicit
`sys.exit(n)` with `n ≠ 0`, or an unhandled exception (the Python
interpreter then exits with status 1). -/
def nonZeroExit (tr : List Event) : Bool :=
  tr.any (fun e =>
    match e with
    | .exitCode n => n != 0
    | .uncaught _ => true
    | _ => false)

/-- `sys.exit` calls appearing in a trace. -/
def exitCalls (tr : List Event) : List Nat :=
  tr.filterMap (fun e => match e with | .exitCode n => some n | _ => none)

/-- A sample environment for witnesses: one directory `pages` holding an
`index.html`, and every bind succeeding. -/
def env0 : Env :=
  ⟨[("pages", [("index.html", "<h1>Stop browsing</h1>")])], fun _ => true⟩

/-- A sample environment for witnesses: one directory `empty` holding no
`index.html`, and every bind succeeding. -/
def env1 : Env :=
  ⟨[("empty", [("other.txt", "x")])], fun _ => true⟩

end StopBrowsing

namespace StopBrowsing

/-- The handler never emits a log line: every dispatch branch logs through
the overridden `log_message`, which produces nothing. -/
theorem handle_logs_nil (d : Dir) (r : Request) :
    (StopBrowsingHandler.handle d r).2 = [] := by
  unfold StopBrowsingHandler.handle
  split <;> rfl

/-- One served connection produces exactly the response event. -/
theorem serve_one_eq (d : Dir) (r : Request) :
    serve_one d r = [Event.response r.path (StopBrowsingHandler.handle d r).1] := by
  simp [serve_one, handle_logs_nil]

/-- The serve loop produces exactly one response event per request, in
order, and nothing else. -/
theorem serve_forever_eq (d : Dir) (reqs : List Request) :
    serve_forever d reqs
      = reqs.map (fun r => Event.response r.path (StopBrowsingHandler.handle d r).1) := by
  induction reqs with
  | nil => rfl
  | cons r rs ih => simp [serve_forever, serve_one_eq] at ih ⊢; exact ih

/-- Shape of the trace of a run that starts up successfully: parseable port,
existing redirect directory, successful bind. -/
theorem main_run_success (env : Env) (name ps rd : String)
    (reqs : List Request) (port : Int) (d : Dir)
    (hport : pyInt ps = some port)
    (hdir : (env.dirs.find? (fun e => e.1 = rd)).map Prod.snd = some d)
    (hbind : env.bindOk port = true) :
    main_run env [name, ps, rd] reqs =
      [Event.chdir rd, Event.bind "" port,
       Event.stdout ("StopBrowsing redirect server running on port "
         ++ toString port)]
      ++ serve_forever d reqs ++ [Event.stdout "Server stopped"] := by
  simp [main_run, hport, hdir, hbind]

/-- Extracting the responses from a list of pure response events recovers
the response of each request, in order. -/
theorem responses_map_response (g : Request → String) (f : Request → Response)
    (reqs : List Request) :
    responses (reqs.map (fun r => Event.response (g r) (f r)))
      = reqs.map f := by
  induction reqs with
  | nil => rfl
  | cons r rs ih => simp only [List.map_cons, responses,
      List.filterMap_cons] at ih ⊢; exact congrArg (f r :: ·) ih

/-- A list of pure response events contains no `sys.exit` event. -/
theorem exitCalls_map_response (g : Request → String) (f : Request → Response)
    (reqs : List Request) :
    exitCalls (reqs.map (fun r => Event.response (g r) (f r))) = [] := by
  induction reqs with
  | nil => rfl
  | cons r rs ih => simpa only [List.map_cons, exitCalls,
      List.filterMap_cons] using ih

/-- A list of pure response events contains no given stdout event. -/
theorem count_stdout_map_response (s : String) (g : Request → String)
    (f : Request → Response) (reqs : List Request) :
    (reqs.map (fun r => Event.response (g r) (f r))).count
      (Event.stdout s) = 0 := by
  induction reqs with
  | nil => rfl
  | cons r rs ih => simp [List.count_cons, ih]

/-- Response extraction distributes over trace concatenation. -/
theorem responses_append (l1 l2 : List Event) :
    responses (l1 ++ l2) = responses l1 ++ responses l2 := by
  simp [responses, List.filterMap_append]

/-- Exit-call extraction distributes over trace concatenation. -/
theorem exitCalls_append (l1 l2 : List Event) :
    exitCalls (l1 ++ l2) = exitCalls l1 ++ exitCalls l2 := by
  simp [exitCalls, List.filterMap_append]

/-- The startup line never coincides with the shutdown line, whatever the
port prints as: the two strings have different lengths. -/
theorem startup_line_ne_stopped (t : String) :
    "StopBrowsing redirect server running on port " ++ t
      ≠ "Server stopped" := by
  intro h
  have hl := congrArg String.length h
  rw [String.length_append] at hl
  have h1 : ("StopBrowsing redirect server running on port " : String).length
      = 45 := by decide
  have h2 : ("Server stopped" : String).length = 14 := by decide
  omega

/-- Bind-attempt extraction distributes over trace concatenation. -/
theorem binds_append (l1 l2 : List Event) :
    binds (l1 ++ l2) = binds l1 ++ binds l2 := by
  simp [binds, List.filterMap_append]

/-- A list of pure response events contains no bind attempt. -/
theorem binds_map_response (g : Request → String) (f : Request → Response)
    (reqs : List Request) :
    binds (reqs.map (fun r => Event.response (g r) (f r))) = [] := by
  induction reqs with
  | nil => rfl
  | cons r rs ih => simpa only [List.map_cons, binds,
      List.filterMap_cons] using ih

/-- Once the port parses and the directory exists, the run attempts exactly
one bind, on host `""` with the parsed port — whether or not the bind then
succeeds. -/
theorem binds_main_run (env : Env) (name ps rd : String)
    (reqs : List Request) (port : Int) (d : Dir)
    (hport : pyInt ps = some port)
    (hdir : (env.dirs.find? (fun e => e.1 = rd)).map Prod.snd = some d) :
    binds (main_run env [name, ps, rd] reqs) = [("", port)] := by
  cases hb : env.bindOk port with
  | true =>
    rw [main_run_success env name ps rd reqs port d hport hdir hb,
      serve_forever_eq, binds_append, binds_append, binds_map_response]
    simp [binds]
  | false =>
    have ht : main_run env [name, ps, rd] reqs
        = [Event.chdir rd, Event.bind "" port, Event.uncaught "OSError"] := by
      simp [main_run, hport, hdir, hb]
    rw [ht]; rfl

/-- Once the port parses and the directory exists, the trace starts with the
directory change immediately followed by the bind attempt. -/
theorem main_run_take_two (env : Env) (name ps rd : String)
    (reqs : List Request) (port : Int) (d : Dir)
    (hport : pyInt ps = some port)
    (hdir : (env.dirs.find? (fun e => e.1 = rd)).map Prod.snd = some d) :
    (main_run env [name, ps, rd] reqs).take 2
      = [Event.chdir rd, Event.bind "" port] := by
  cases hb : env.bindOk port with
  | true =>
    rw [main_run_success env name ps rd reqs port d hport hdir hb]
    rfl
  | false =>
    have ht : main_run env [name, ps, rd] reqs
        = [Event.chdir rd, Event.bind "" port, Event.uncaught "OSError"] := by
      simp [main_run, hport, hdir, hb]
    rw [ht]; rfl

/-- Claim C1: every GET request, whatever its path (query string and headers
included), is answered with the same body as a GET for `/index.html` over
the same redirect-directory content, because `do_GET` rewrites the path to
`/index.html` before delegating to the static-file-serving logic. -/
theorem get_body_path_independent (d : Dir) (p : String)
    (h1 h2 : List (String × String)) :
    (StopBrowsingHandler.handle d ⟨"GET", p, h1⟩).1.body
      = (StopBrowsingHandler.handle d ⟨"GET", "/index.html", h2⟩).1.body :=
  rfl

/-- Claim C2: with any argument count other than exactly two values after
the program name, the run prints the usage message to standard output and
exits with status 1, attempting no socket bind and no working-directory
change. -/
theorem wrong_arg_count_usage_exit (env : Env) (argv : List String)
    (reqs : List Request) (h : argv.length ≠ 3) :
    main_run env argv reqs
      = [Event.stdout "Usage: redirect_server.py <port> <redirect_dir>",
         Event.exitCode 1]
    ∧ binds (main_run env argv reqs) = []
    ∧ chdirs (main_run env argv reqs) = [] := by
  have ht : main_run env argv reqs
      = [Event.stdout "Usage: redirect_server.py <port> <redirect_dir>",
         Event.exitCode 1] := by
    simp [main_run, h]
  exact ⟨ht, by rw [ht]; rfl, by rw [ht]; rfl⟩

/-- Witness for C2 at the concrete invocation with no arguments. -/
theorem wrong_arg_count_usage_exit_witness :
    (["redirect_server.py"] : List String).length ≠ 3 ∧
    (main_run env0 ["redirect_server.py"] []
      = [Event.stdout "Usage: redirect_server.py <port> <redirect_dir>",
         Event.exitCode 1]
    ∧ binds (main_run env0 ["redirect_server.py"] []) = []
    ∧ chdirs (main_run env0 ["redirect_server.py"] []) = []) :=
  ⟨by decide, wrong_arg_count_usage_exit env0 ["redirect_server.py"] [] (by decide)⟩

/-- Counterexample to C3 as stated: with the unparseable port `eighty` the
process dies of an unhandled `ValueError` and nothing at all is printed to
standard output — in particular no usage message. -/
theorem unparseable_port_no_usage :
    main_run env0 ["redirect_server.py", "eighty", "pages"] []
      = [Event.uncaught "ValueError"]
    ∧ stdoutLines (main_run env0 ["redirect_server.py", "eighty", "pages"] [])
      = [] := by
  exact ⟨by decide, by decide⟩

/-- Claim C3 (amended): with exactly two arguments and a port value that
`int()` cannot parse, the process fails fast with an unhandled `ValueError`
— a non-zero exit with no socket bind — but prints no usage message. -/
theorem unparseable_port_fails_fast (env : Env) (name ps rd : String)
    (reqs : List Request) (hp : pyInt ps = none) :
    main_run env [name, ps, rd] reqs = [Event.uncaught "ValueError"]
    ∧ nonZeroExit (main_run env [name, ps, rd] reqs) = true
    ∧ binds (main_run env [name, ps, rd] reqs) = []
    ∧ stdoutLines (main_run env [name, ps, rd] reqs) = [] := by
  have ht : main_run env [name, ps, rd] reqs = [Event.uncaught "ValueError"] := by
    simp [main_run, hp]
  exact ⟨ht, by rw [ht]; rfl, by rw [ht]; rfl, by rw [ht]; rfl⟩

/-- Witness for the amended C3 at the concrete port string `eighty`. -/
theorem unparseable_port_fails_fast_witness :
    pyInt "eighty" = none ∧
    (main_run env0 ["redirect_server.py", "eighty", "pages"] []
        = [Event.uncaught "ValueError"]
    ∧ nonZeroExit (main_run env0 ["redirect_server.py", "eighty", "pages"] [])
        = true
    ∧ binds (main_run env0 ["redirect_server.py", "eighty", "pages"] []) = []
    ∧ stdoutLines (main_run env0 ["redirect_server.py", "eighty", "pages"] [])
        = []) :=
  ⟨by decide,
    unparseable_port_fails_fast env0 "redirect_server.py" "eighty" "pages" []
      (by decide)⟩

/-- Claim C4: when the redirect directory holds no `index.html`, every GET
request (any path) is answered 404 by the delegated static-file logic, and
the run still serves a response to every request and reaches the normal
shutdown message — the accept loop does not terminate on the error. -/
theorem missing_index_404_server_alive (env : Env) (name ps rd : String)
    (reqs : List Request) (port : Int) (d : Dir) (req : Request)
    (hidx : lookupFile d "index.html" = none)
    (hm : req.method = "GET")
    (hport : pyInt ps = some port)
    (hdir : (env.dirs.find? (fun e => e.1 = rd)).map Prod.snd = some d)
    (hbind : env.bindOk port = true) :
    (StopBrowsingHandler.handle d req).1.status = 404
    ∧ responses (main_run env [name, ps, rd] reqs)
        = reqs.map (fun r => (StopBrowsingHandler.handle d r).1)
    ∧ (main_run env [name, ps, rd] reqs).getLast?
        = some (Event.stdout "Server stopped") := by
  refine ⟨?_, ?_, ?_⟩
  · obtain ⟨m, p, hs⟩ := req
    simp only at hm
    subst hm
    simp [StopBrowsingHandler.handle, StopBrowsingHandler.do_GET,
      super_do_GET, send_head, translate_path, splitOnChar, joinSlash, hidx]
  · rw [main_run_success env name ps rd reqs port d hport hdir hbind,
      serve_forever_eq, responses_append, responses_append,
      responses_map_response]
    simp [responses]
  · rw [main_run_success env name ps rd reqs port d hport hdir hbind]
    exact List.getLast?_concat _

/-- Witness for C4: directory `empty` has no `index.html`; a GET for `/`
gets 404 and the run with one request still ends in `Server stopped`. -/
theorem missing_index_404_server_alive_witness :
    (lookupFile [("other.txt", "x")] "index.html" = none
      ∧ (Request.mk "GET" "/" []).method = "GET"
      ∧ pyInt "80" = some 80
      ∧ (env1.dirs.find? (fun e => e.1 = "empty")).map Prod.snd
          = some [("other.txt", "x")]
      ∧ env1.bindOk 80 = true)
    ∧ ((StopBrowsingHandler.handle [("other.txt", "x")]
          ⟨"GET", "/", []⟩).1.status = 404
      ∧ responses (main_run env1 ["redirect_server.py", "80", "empty"]
          [⟨"GET", "/a", []⟩])
        = [⟨"GET", "/a", []⟩].map
            (fun r => (StopBrowsingHandler.handle [("other.txt", "x")] r).1)
      ∧ (main_run env1 ["redirect_server.py", "80", "empty"]
          [⟨"GET", "/a", []⟩]).getLast?
        = some (Event.stdout "Server stopped")) :=
  ⟨⟨by decide, by decide, by decide, by decide, by decide⟩,
    missing_index_404_server_alive env1 "redirect_server.py" "80" "empty"
      [⟨"GET", "/a", []⟩] 80 [("other.txt", "x")] ⟨"GET", "/", []⟩
      (by decide) (by decide) (by decide) (by decide) (by decide)⟩

/-- Claim C5: with a parseable port and a redirect directory that does not
exist, the working-directory change fails first: the run dies of an
unhandled error, exits non-zero, and never attempts a socket bind. -/
theorem missing_dir_no_bind (env : Env) (name ps rd : String)
    (reqs : List Request) (port : Int)
    (hport : pyInt ps = some port)
    (hdir : env.dirs.find? (fun e => e.1 = rd) = none) :
    main_run env [name, ps, rd] reqs = [Event.uncaught "FileNotFoundError"]
    ∧ binds (main_run env [name, ps, rd] reqs) = []
    ∧ nonZeroExit (main_run env [name, ps, rd] reqs) = true := by
  have ht : main_run env [name, ps, rd] reqs
      = [Event.uncaught "FileNotFoundError"] := by
    simp [main_run, hport, hdir]
  exact ⟨ht, by rw [ht]; rfl, by rw [ht]; rfl⟩

/-- Witness for C5 at the concrete directory name `nosuch`, absent from the
environment. -/
theorem missing_dir_no_bind_witness :
    (pyInt "80" = some 80
      ∧ env0.dirs.find? (fun e => e.1 = "nosuch") = none)
    ∧ (main_run env0 ["redirect_server.py", "80", "nosuch"] []
        = [Event.uncaught "FileNotFoundError"]
    ∧ binds (main_run env0 ["redirect_server.py", "80", "nosuch"] []) = []
    ∧ nonZeroExit (main_run env0 ["redirect_server.py", "80", "nosuch"] [])
        = true) :=
  ⟨⟨by decide, by decide⟩,
    missing_dir_no_bind env0 "redirect_server.py" "80" "nosuch" [] 80
      (by decide) (by decide)⟩

/-- Claim C6: over a whole successful run, whatever requests arrive, the
lines printed to standard output or standard error are exactly the startup
confirmation naming the bound port and the shutdown acknowledgment — no
per-request log line is ever written. -/
theorem quiet_run_two_lifecycle_lines (env : Env) (name ps rd : String)
    (reqs : List Request) (port : Int) (d : Dir)
    (hport : pyInt ps = some port)
    (hdir : (env.dirs.find? (fun e => e.1 = rd)).map Prod.snd = some d)
    (hbind : env.bindOk port = true) :
    printedLines (main_run env [name, ps, rd] reqs)
      = ["StopBrowsing redirect server running on port " ++ toString port,
         "Server stopped"] := by
  rw [main_run_success env name ps rd reqs port d hport hdir hbind,
    serve_forever_eq]
  simp [printedLines, List.filterMap_append, List.filterMap_map,
    Function.comp]

/-- Witness for C6: a run with three requests of mixed methods prints
exactly the two lifecycle lines. -/
theorem quiet_run_two_lifecycle_lines_witness :
    (pyInt "80" = some 80
      ∧ (env0.dirs.find? (fun e => e.1 = "pages")).map Prod.snd
          = some [("index.html", "<h1>Stop browsing</h1>")]
      ∧ env0.bindOk 80 = true)
    ∧ printedLines (main_run env0 ["redirect_server.py", "80", "pages"]
        [⟨"GET", "/", []⟩, ⟨"HEAD", "/x", []⟩, ⟨"POST", "/y", []⟩])
      = ["StopBrowsing redirect server running on port " ++ toString (80 : Int),
         "Server stopped"] :=
  ⟨⟨by decide, by decide, by decide⟩,
    quiet_run_two_lifecycle_lines env0 "redirect_server.py" "80" "pages"
      [⟨"GET", "/", []⟩, ⟨"HEAD", "/x", []⟩, ⟨"POST", "/y", []⟩] 80
      [("index.html", "<h1>Stop browsing</h1>")]
      (by decide) (by decide) (by decide)⟩

/-- Claim C7: the serve loop is ended only by the interrupt: the run answers
every request that arrived, prints the stopped message exactly once, and
issues no `sys.exit` call at all — the process ends by falling off `main`. -/
theorem interrupt_clean_shutdown (env : Env) (name ps rd : String)
    (reqs : List Request) (port : Int) (d : Dir)
    (hport : pyInt ps = some port)
    (hdir : (env.dirs.find? (fun e => e.1 = rd)).map Prod.snd = some d)
    (hbind : env.bindOk port = true) :
    (main_run env [name, ps, rd] reqs).count (Event.stdout "Server stopped") = 1
    ∧ exitCalls (main_run env [name, ps, rd] reqs) = []
    ∧ responses (main_run env [name, ps, rd] reqs)
        = reqs.map (fun r => (StopBrowsingHandler.handle d r).1) := by
  rw [main_run_success env name ps rd reqs port d hport hdir hbind,
    serve_forever_eq]
  refine ⟨?_, ?_, ?_⟩
  · rw [List.count_append, List.count_append, count_stdout_map_response]
    have hne := startup_line_ne_stopped (toString port)
    simp [List.count_cons, hne]
  · rw [exitCalls_append, exitCalls_append, exitCalls_map_response]
    simp [exitCalls]
  · rw [responses_append, responses_append, responses_map_response]
    simp [responses]

/-- Witness for C7: the run with two requests answers both, prints one
stopped line, and calls `sys.exit` nowhere. -/
theorem interrupt_clean_shutdown_witness :
    (pyInt "80" = some 80
      ∧ (env0.dirs.find? (fun e => e.1 = "pages")).map Prod.snd
          = some [("index.html", "<h1>Stop browsing</h1>")]
      ∧ env0.bindOk 80 = true)
    ∧ ((main_run env0 ["redirect_server.py", "80", "pages"]
          [⟨"GET", "/", []⟩, ⟨"GET", "/b", []⟩]).count
            (Event.stdout "Server stopped") = 1
      ∧ exitCalls (main_run env0 ["redirect_server.py", "80", "pages"]
          [⟨"GET", "/", []⟩, ⟨"GET", "/b", []⟩]) = []
      ∧ responses (main_run env0 ["redirect_server.py", "80", "pages"]
          [⟨"GET", "/", []⟩, ⟨"GET", "/b", []⟩])
        = [⟨"GET", "/", []⟩, ⟨"GET", "/b", []⟩].map
            (fun r => (StopBrowsingHandler.handle
              [("index.html", "<h1>Stop browsing</h1>")] r).1)) :=
  ⟨⟨by decide, by decide, by decide⟩,
    interrupt_clean_shutdown env0 "redirect_server.py" "80" "pages"
      [⟨"GET", "/", []⟩, ⟨"GET", "/b", []⟩] 80
      [("index.html", "<h1>Stop browsing</h1>")]
      (by decide) (by decide) (by decide)⟩

/-- Claim C8: any port value `int()` can parse — zero, negative, or above
65535 included — undergoes no range validation: the run goes straight from
the working-directory change to a bind attempt carrying exactly the parsed
value. -/
theorem port_unvalidated_to_bind (env : Env) (name ps rd : String)
    (reqs : List Request) (port : Int) (d : Dir)
    (hport : pyInt ps = some port)
    (hdir : (env.dirs.find? (fun e => e.1 = rd)).map Prod.snd = some d) :
    (main_run env [name, ps, rd] reqs).take 2
      = [Event.chdir rd, Event.bind "" port]
    ∧ binds (main_run env [name, ps, rd] reqs) = [("", port)] :=
  ⟨main_run_take_two env name ps rd reqs port d hport hdir,
    binds_main_run env name ps rd reqs port d hport hdir⟩

/-- Witness for C8 at the out-of-range port string `70000`: the parsed value
reaches the bind attempt unchecked. -/
theorem port_unvalidated_to_bind_witness :
    (pyInt "70000" = some 70000
      ∧ (env0.dirs.find? (fun e => e.1 = "pages")).map Prod.snd
          = some [("index.html", "<h1>Stop browsing</h1>")])
    ∧ ((main_run env0 ["redirect_server.py", "70000", "pages"] []).take 2
        = [Event.chdir "pages", Event.bind "" 70000]
    ∧ binds (main_run env0 ["redirect_server.py", "70000", "pages"] [])
        = [("", 70000)]) :=
  ⟨⟨by decide, by decide⟩,
    port_unvalidated_to_bind env0 "redirect_server.py" "70000" "pages" []
      70000 [("index.html", "<h1>Stop browsing</h1>")]
      (by decide) (by decide)⟩

/-- Claim C9: only GET carries the path override.  With `index.html` present
and a requested path that names no file in the directory, HEAD on that path
falls through to the inherited handler and gets 404, while GET on the same
path gets 200 with the `index.html` page. -/
theorem head_not_rewritten (d : Dir) (p : String)
    (hs1 hs2 : List (String × String)) (c : String)
    (hidx : lookupFile d "index.html" = some c)
    (hp : lookupFile d (translate_path p) = none)
    (hne : translate_path p ≠ "") :
    (StopBrowsingHandler.handle d ⟨"HEAD", p, hs1⟩).1.status = 404
    ∧ (StopBrowsingHandler.handle d ⟨"GET", p, hs2⟩).1
        = ⟨200, c⟩ := by
  constructor
  · simp [StopBrowsingHandler.handle, super_do_HEAD, send_head, hne, hp]
  · simp [StopBrowsingHandler.handle, StopBrowsingHandler.do_GET,
      super_do_GET, send_head, translate_path, splitOnChar, joinSlash, hidx]

/-- Witness for C9 at the path `/missing` over a directory holding only
`index.html`. -/
theorem head_not_rewritten_witness :
    (lookupFile [("index.html", "HELLO")] "index.html" = some "HELLO"
      ∧ lookupFile [("index.html", "HELLO")] (translate_path "/missing")
          = none
      ∧ translate_path "/missing" ≠ "")
    ∧ ((StopBrowsingHandler.handle [("index.html", "HELLO")]
          ⟨"HEAD", "/missing", []⟩).1.status = 404
    ∧ (StopBrowsingHandler.handle [("index.html", "HELLO")]
          ⟨"GET", "/missing", []⟩).1 = ⟨200, "HELLO"⟩) :=
  ⟨⟨by decide, by decide, by decide⟩,
    head_not_rewritten [("index.html", "HELLO")] "/missing" [] [] "HELLO"
      (by decide) (by decide) (by decide)⟩

/-- Claim C10: every socket the run creates is bound with the empty-string
host address — the all-interfaces wildcard — so the listener is not limited
to the loopback interface. -/
theorem bind_host_is_wildcard (env : Env) (name ps rd : String)
    (reqs : List Request) (port : Int) (d : Dir)
    (hport : pyInt ps = some port)
    (hdir : (env.dirs.find? (fun e => e.1 = rd)).map Prod.snd = some d) :
    (binds (main_run env [name, ps, rd] reqs)).map Prod.fst = [""] := by
  rw [binds_main_run env name ps rd reqs port d hport hdir]
  rfl

/-- Witness for C10 at the concrete invocation on port 80. -/
theorem bind_host_is_wildcard_witness :
    (pyInt "80" = some 80
      ∧ (env0.dirs.find? (fun e => e.1 = "pages")).map Prod.snd
          = some [("index.html", "<h1>Stop browsing</h1>")])
    ∧ (binds (main_run env0 ["redirect_server.py", "80", "pages"] [])).map
        Prod.fst = [""] :=
  ⟨⟨by decide, by decide⟩,
    bind_host_is_wildcard env0 "redirect_server.py" "80" "pages" [] 80
      [("index.html", "<h1>Stop browsing</h1>")]
      (by decide) (by decide)⟩

end StopBrowsing
